import Mathlib

/-!
# Verification of `weather.py`

Shallow embedding of `weather.py`, a single-file CLI tool that fetches the
current weather for a named city from the OpenWeather HTTP API and prints a
colorized one-line summary.

Modelling conventions:
* Python functions become Lean functions; process termination via `sys.exit`
  and uncaught exceptions (`KeyError`, `IndexError`) become an
  `Except AppError` result.
* The HTTP fetch and `json.loads` are external collaborators; they enter the
  model as an explicit `FetchResult` value and an abstract decode function.
* JSON numbers (the temperature) are carried as their printed decimal
  rendering, since the program performs no arithmetic on them and only
  formats them into the output line.
* `urllib.parse.quote_plus` is modelled faithfully down to the UTF-8 byte
  level (safe characters, `+` for space, uppercase percent escapes).
-/

/-! ### Terminal style constants

Modelled from the spec: the local `style` module imported by `weather.py` is
not among the sources.  The spec describes it as ANSI color/style control
sequences (reverse-video, reset, and the foreground colors red, cyan, blue,
white, yellow) plus a fixed display width used for centering. -/

/-- Modelled from the spec: fixed display width of the `style` module. -/
def PADDING : Nat := 20

/-- Modelled from the spec: ANSI reverse-video control sequence. -/
def REVERSE : String := "\u001B[;7m"

/-- Modelled from the spec: ANSI style-reset control sequence. -/
def RESET : String := "\u001B[0m"

/-- Modelled from the spec: ANSI red foreground. -/
def RED : String := "\u001B[31m"

/-- Modelled from the spec: ANSI cyan foreground. -/
def CYAN : String := "\u001B[36m"

/-- Modelled from the spec: ANSI blue foreground. -/
def BLUE : String := "\u001B[34m"

/-- Modelled from the spec: ANSI white foreground. -/
def WHITE : String := "\u001B[37m"

/-- Modelled from the spec: ANSI yellow foreground. -/
def YELLOW : String := "\u001B[33m"

/-! ### UTF-8 bytes

`urllib.parse.quote_plus` and `unquote_plus` operate on the UTF-8 bytes of
the string; bytes are modelled as `Nat` values below 256. -/

/-- UTF-8 encoding of one character as a list of byte values. -/
def utf8EncodeChar (c : Char) : List Nat :=
  if c.toNat < 128 then [c.toNat]
  else if c.toNat < 2048 then [192 + c.toNat / 64, 128 + c.toNat % 64]
  else if c.toNat < 65536 then
    [224 + c.toNat / 4096, 128 + c.toNat / 64 % 64, 128 + c.toNat % 64]
  else
    [240 + c.toNat / 262144, 128 + c.toNat / 4096 % 64,
     128 + c.toNat / 64 % 64, 128 + c.toNat % 64]

/-- The UTF-8 bytes of a string. -/
def strBytes (s : String) : List Nat := s.data.flatMap utf8EncodeChar

/-- Decode one UTF-8-encoded character from the front of a byte list,
returning the character and the remaining bytes. -/
def utf8DecodeOne : List Nat → Option (Char × List Nat)
  | [] => none
  | b :: bs =>
    if b < 128 then some (Char.ofNat b, bs)
    else if b < 192 then none
    else if b < 224 then
      match bs with
      | b1 :: bs1 =>
        if 128 ≤ b1 ∧ b1 < 192 then
          some (Char.ofNat ((b - 192) * 64 + (b1 - 128)), bs1)
        else none
      | [] => none
    else if b < 240 then
      match bs with
      | b1 :: b2 :: bs2 =>
        if (128 ≤ b1 ∧ b1 < 192) ∧ (128 ≤ b2 ∧ b2 < 192) then
          some (Char.ofNat ((b - 224) * 4096 + (b1 - 128) * 64 + (b2 - 128)), bs2)
        else none
      | _ => none
    else if b < 248 then
      match bs with
      | b1 :: b2 :: b3 :: bs3 =>
        if (128 ≤ b1 ∧ b1 < 192) ∧ (128 ≤ b2 ∧ b2 < 192) ∧ (128 ≤ b3 ∧ b3 < 192) then
          some (Char.ofNat ((b - 240) * 262144 + (b1 - 128) * 4096
            + (b2 - 128) * 64 + (b3 - 128)), bs3)
        else none
      | _ => none
    else none

/-- Fuelled UTF-8 decoder over a whole byte list. -/
def utf8DecodeFuel : Nat → List Nat → Option (List Char)
  | _, [] => some []
  | 0, _ :: _ => none
  | fuel + 1, b :: bs =>
    match utf8DecodeOne (b :: bs) with
    | none => none
    | some (c, rest) => (utf8DecodeFuel fuel rest).map fun cs => c :: cs

/-- Decode a UTF-8 byte list into characters; `none` on malformed input. -/
def utf8Decode (l : List Nat) : Option (List Char) := utf8DecodeFuel l.length l

/-! ### Percent-encoding (model of `urllib.parse.quote_plus` / `unquote_plus`) -/

/-- The bytes `urllib.parse.quote` never escapes: ASCII letters, digits and
`_.-~` (the call site passes an empty extra-safe set). -/
def isSafeByte (b : Nat) : Bool :=
  (48 ≤ b && b ≤ 57) || (65 ≤ b && b ≤ 90) || (97 ≤ b && b ≤ 122)
  || b == 45 || b == 46 || b == 95 || b == 126

/-- Uppercase hexadecimal digit for a value below 16, as a byte. -/
def hexDigit (n : Nat) : Nat := if n < 10 then 48 + n else 55 + n

/-- Is the byte an ASCII hexadecimal digit? -/
def isHexDigitByte (b : Nat) : Bool :=
  (48 ≤ b && b ≤ 57) || (65 ≤ b && b ≤ 70) || (97 ≤ b && b ≤ 102)

/-- Numeric value of an ASCII hexadecimal digit byte. -/
def hexVal (b : Nat) : Nat :=
  if b ≤ 57 then b - 48 else if b ≤ 70 then b - 55 else b - 87

/-- Byte-level `quote_plus`: space becomes `+`, safe bytes stay literal,
every other byte becomes an uppercase `%XX` escape. -/
def quotePlusBytes : List Nat → List Nat
  | [] => []
  | b :: bs =>
    (if b == 32 then [43]
     else if isSafeByte b then [b]
     else [37, hexDigit (b / 16), hexDigit (b % 16)]) ++ quotePlusBytes bs

/-- Fuelled worker for `unquotePlusBytes`; one unit of fuel is spent per
produced byte, so fuel equal to the input length always suffices. -/
def unquotePlusFuel : Nat → List Nat → List Nat
  | _, [] => []
  | 0, l => l
  | fuel + 1, b :: bs =>
    if b == 43 then 32 :: unquotePlusFuel fuel bs
    else if b == 37 then
      match bs with
      | b1 :: b2 :: bs2 =>
        if isHexDigitByte b1 && isHexDigitByte b2 then
          (hexVal b1 * 16 + hexVal b2) :: unquotePlusFuel fuel bs2
        else b :: unquotePlusFuel fuel (b1 :: b2 :: bs2)
      | _ => b :: unquotePlusFuel fuel bs
    else b :: unquotePlusFuel fuel bs

/-- Byte-level `unquote_plus`: `+` becomes space, `%XX` with two hex digits
decodes to a byte, anything else stays literal. -/
def unquotePlusBytes (l : List Nat) : List Nat := unquotePlusFuel l.length l

/-- Render a list of (ASCII) byte values as a string. -/
def asciiString (bs : List Nat) : String := String.mk (bs.map Char.ofNat)

/-- Model of Python `urllib.parse.quote_plus` (UTF-8 based). -/
def quote_plus (s : String) : String := asciiString (quotePlusBytes (strBytes s))

/-- Model of Python `urllib.parse.unquote_plus` on ASCII input.  Malformed
UTF-8 yields `none` here (Python substitutes replacement characters there);
both agree on every round-trip input, which is well-formed by construction. -/
def unquote_plus (s : String) : Option String :=
  (utf8Decode (unquotePlusBytes (s.data.map Char.toNat))).map String.mk

/-! ### URL query parsing

Claim-statement apparatus: extracting the query parameters (`key=value`
pairs after `?`, separated by `&`) from a URL string. -/

/-- Split a character list at the first occurrence of `c`; `none` when `c`
does not occur. -/
def splitFirst (c : Char) : List Char → Option (List Char × List Char)
  | [] => none
  | x :: xs =>
    if x = c then some ([], xs)
    else
      match splitFirst c xs with
      | none => none
      | some (a, b) => some (x :: a, b)

/-- Tail-recursive worker for `splitOnChar`. -/
def splitOnCharAux (c : Char) : List Char → List Char → List (List Char)
  | [], acc => [acc.reverse]
  | x :: xs, acc =>
    if x = c then acc.reverse :: splitOnCharAux c xs []
    else splitOnCharAux c xs (x :: acc)

/-- Split a character list on every occurrence of `c`. -/
def splitOnChar (c : Char) (l : List Char) : List (List Char) :=
  splitOnCharAux c l []

/-- Parse one `key=value` chunk (value empty when no `=` occurs). -/
def parseParam (chunk : List Char) : String × String :=
  match splitFirst '=' chunk with
  | none => (String.mk chunk, "")
  | some (k, v) => (String.mk k, String.mk v)

/-- The `key=value` query parameters of a URL, in order. -/
def queryParams (url : String) : List (String × String) :=
  match splitFirst '?' url.data with
  | none => []
  | some (_, query) => (splitOnChar '&' query).map parseParam

/-- The value of the first `q` query parameter of a URL. -/
def qValue (url : String) : Option String := (queryParams url).lookup "q"

/-! ### Substring test (claim-statement apparatus) -/

/-- Does `l` start with `s`? -/
def headMatches : List Char → List Char → Bool
  | [], _ => true
  | _ :: _, [] => false
  | a :: as, b :: bs => a == b && headMatches as bs

/-- Does the character list `hay` contain `needle` as a contiguous run? -/
def charsContain : List Char → List Char → Bool
  | [], needle => needle.isEmpty
  | _h :: hs, needle => headMatches needle (_h :: hs) || charsContain hs needle

/-- Does the string `hay` contain `needle` as a substring? -/
def strContains (hay needle : String) : Bool := charsContain hay.data needle.data

/-! ### Data model of `weather.py` -/

/-- How the modelled process terminates early: an uncaught Python exception
(`KeyError` with the missing key, `IndexError`), or `sys.exit(message)`. -/
inductive AppError where
  | keyError (key : String)
  | indexError
  | exitMsg (msg : String)
deriving DecidableEq

/-- Outcome of `urllib.request.urlopen`: an `HTTPError` carrying the status
code (and a body the program never reads), or a successful response body. -/
inductive FetchResult where
  | httpError (code : Nat) (body : String)
  | success (body : String)
deriving DecidableEq

/-- Parsed content of `secrets.ini` as seen through `ConfigParser`:
sections, each with key/value fields.  A missing file reads as an empty
configuration. -/
structure IniConfig where
  sections : List (String × List (String × String))
deriving DecidableEq

/-- One entry of the response's `weather` array: numeric condition code
`id` and textual `description`. -/
structure WeatherEntry where
  id : Int
  description : String
deriving DecidableEq

/-- The response's `main` object; `temp` is the temperature's printed
decimal rendering, `none` when the field is absent. -/
structure MainObj where
  temp : Option String
deriving DecidableEq

/-- The response's `sys` object; `country` is `none` when absent. -/
structure SysObj where
  country : Option String
deriving DecidableEq

/-- The decoded weather response, with `none` for each absent field. -/
structure WeatherData where
  name : Option String
  weather : Option (List WeatherEntry)
  main : Option MainObj
  sys : Option SysObj
deriving DecidableEq

/-- Python dict subscript: `KeyError` on a missing key. -/
def pyGetField {α : Type} (v : Option α) (key : String) : Except AppError α :=
  match v with
  | some x => .ok x
  | none => .error (.keyError key)

/-- Python list subscript (for non-negative indices): `IndexError` out of
range. -/
def pyGetIndex {α : Type} : List α → Nat → Except AppError α
  | [], _ => .error .indexError
  | x :: _, 0 => .ok x
  | _ :: xs, i + 1 => pyGetIndex xs i

/-- Python `str.capitalize`: first character uppercased, the rest
lowercased (ASCII model of the case maps). -/
def pyCapitalize (s : String) : String :=
  match s.data with
  | [] => ""
  | c :: cs => String.mk (c.toUpper :: cs.map Char.toLower)

/-- Python format spec `^width`: center within `width`, extra padding going
to the right; strings at least `width` long are unchanged. -/
def pyCenter (s : String) (width : Nat) : String :=
  String.mk (List.replicate ((width - s.length) / 2) ' ')
    ++ s
    ++ String.mk (List.replicate
        ((width - s.length) - (width - s.length) / 2) ' ')

/-! ### `weather.py` itself -/

/-- `BASE_WEATHER_API_URL` (weather.py line 13). -/
def BASE_WEATHER_API_URL : String := "http://api.openweathermap.org/data/2.5/weather"

/-- `THUNDERSTORM = range(200, 300)` as a half-open integer interval. -/
def THUNDERSTORM : Int × Int := (200, 300)

/-- `DRIZZLE = range(300, 400)`. -/
def DRIZZLE : Int × Int := (300, 400)

/-- `RAIN = range(500, 600)`. -/
def RAIN : Int × Int := (500, 600)

/-- `SNOW = range(600, 700)`. -/
def SNOW : Int × Int := (600, 700)

/-- `ATMOSPHERE = range(700, 800)`. -/
def ATMOSPHERE : Int × Int := (700, 800)

/-- `CLEAR = range(800, 801)`. -/
def CLEAR : Int × Int := (800, 801)

/-- `CLOUDY = range(801, 900)`. -/
def CLOUDY : Int × Int := (801, 900)

/-- Python `x in range(lo, hi)` for an integer `x`. -/
def rangeContains (r : Int × Int) (x : Int) : Bool :=
  decide (r.1 ≤ x) && decide (x < r.2)

/-- `_get_api_key` (weather.py lines 26-40): `config["openweather"]["api_key"]`
after reading `secrets.ini`; a missing section or field raises `KeyError`. -/
def get_api_key (config : IniConfig) : Except AppError String :=
  match config.sections.lookup "openweather" with
  | none => .error (.keyError "openweather")
  | some sec =>
    match sec.lookup "api_key" with
    | none => .error (.keyError "api_key")
    | some k => .ok k

/-- `build_weather_query` (weather.py lines 65-84). -/
def build_weather_query (config : IniConfig) (city_input : List String)
    (imperial : Bool) : Except AppError String :=
  match get_api_key config with
  | .error e => .error e
  | .ok api_key =>
    let city_name := String.intercalate " " city_input
    let url_encoded_city_name := quote_plus city_name
    let units := if imperial then "imperial" else "metric"
    .ok (BASE_WEATHER_API_URL ++ "?q=" ++ url_encoded_city_name
      ++ "&units=" ++ units ++ "&appid=" ++ api_key)

/-- `get_weather_data` (weather.py lines 87-112), abstracted over the
`json.loads` decoder (`none` models `json.JSONDecodeError`). -/
def get_weather_data {α : Type} (json_loads : String → Option α) :
    FetchResult → Except AppError α
  | .httpError code _ =>
    if code == 401 then .error (.exitMsg "Access denied.  Check your API key.")
    else if code == 404 then .error (.exitMsg "Can't find weather data for this city.")
    else .error (.exitMsg ("Something went wrong... (" ++ toString code ++ ")"))
  | .success body =>
    match json_loads body with
    | some data => .ok data
    | none => .error (.exitMsg "Couldn't read the server response.")

/-- The color-selection chain of `display_weather_info`
(weather.py lines 136-151). -/
def select_colour (weather_id : Int) : String :=
  if rangeContains THUNDERSTORM weather_id then RED
  else if rangeContains DRIZZLE weather_id then CYAN
  else if rangeContains RAIN weather_id then BLUE
  else if rangeContains SNOW weather_id then WHITE
  else if rangeContains ATMOSPHERE weather_id then BLUE
  else if rangeContains CLEAR weather_id then YELLOW
  else if rangeContains CLOUDY weather_id then WHITE
  else RESET

/-- The text written to stdout by `display_weather_info`
(weather.py lines 130-158).  The `Â°` before the unit letter
reproduces the two characters that line 158 of the source actually
contains (a `Â` then a degree sign: the degree sign is double-encoded
in the file). -/
def render_line (city : String) (weather_id : Int) (weather_description : String)
    (temperature : String) (imperial : Bool) : String :=
  (REVERSE ++ pyCenter city PADDING ++ RESET)
  ++ select_colour weather_id
  ++ ("\t" ++ pyCenter (pyCapitalize weather_description) PADDING ++ " " ++ RESET
    ++ "(" ++ temperature ++ "Â°"
    ++ (if imperial then "F" else "C") ++ ")\n")

/-- `display_weather_info` (weather.py lines 115-158): field extraction in
source order, then the formatted line; `.error` models the uncaught
exception paths. -/
def display_weather_info (weather_data : WeatherData) (imperial : Bool) :
    Except AppError String := do
  let city ← pyGetField weather_data.name "name"
  let ws ← pyGetField weather_data.weather "weather"
  let w0 ← pyGetIndex ws 0
  let weather_id := w0.id
  let weather_description := w0.description
  let mainObj ← pyGetField weather_data.main "main"
  let temperature ← pyGetField mainObj.temp "temp"
  let sysObj ← pyGetField weather_data.sys "sys"
  let _country ← pyGetField sysObj.country "country"
  pure (render_line city weather_id weather_description temperature imperial)

/-- The `__main__` block (weather.py lines 161-166), abstracted over the
HTTP transport and the JSON decoder. -/
def run_weather (config : IniConfig) (fetch : String → FetchResult)
    (json_loads : String → Option WeatherData) (city : List String)
    (imperial : Bool) : Except AppError String := do
  let query_url ← build_weather_query config city imperial
  let weather_data ← get_weather_data json_loads (fetch query_url)
  display_weather_info weather_data imperial

/-! ## Character and byte facts -/

theorem char_toNat_lt (c : Char) : c.toNat < 1114112 := by
  have h := c.valid
  show c.val.toNat < 1114112
  rcases h with h | ⟨h1, h2⟩ <;> omega

theorem char_toNat_ofNat {n : Nat} (h : n < 55296) : (Char.ofNat n).toNat = n := by
  have hv : n.isValidChar := Or.inl h
  simp [Char.ofNat, dif_pos hv]
  rfl

/-! ## UTF-8 round trip -/

theorem utf8EncodeChar_ne_nil (c : Char) : utf8EncodeChar c ≠ [] := by
  unfold utf8EncodeChar
  split_ifs <;> simp

theorem utf8EncodeChar_lt_256 (c : Char) : ∀ b ∈ utf8EncodeChar c, b < 256 := by
  have hv := char_toNat_lt c
  intro b hb
  unfold utf8EncodeChar at hb
  split_ifs at hb <;> simp at hb <;> omega

theorem utf8DecodeOne_encode (c : Char) (r : List Nat) :
    utf8DecodeOne (utf8EncodeChar c ++ r) = some (c, r) := by
  have hv : c.toNat < 1114112 := char_toNat_lt c
  unfold utf8EncodeChar
  by_cases h1 : c.toNat < 128
  · rw [if_pos h1]
    show utf8DecodeOne (c.toNat :: r) = some (c, r)
    simp only [utf8DecodeOne]
    rw [if_pos h1, Char.ofNat_toNat]
  · rw [if_neg h1]
    by_cases h2 : c.toNat < 2048
    · rw [if_pos h2]
      show utf8DecodeOne ((192 + c.toNat / 64) :: (128 + c.toNat % 64) :: r)
        = some (c, r)
      simp only [utf8DecodeOne]
      rw [if_neg (show ¬(192 + c.toNat / 64 < 128) by omega),
        if_neg (show ¬(192 + c.toNat / 64 < 192) by omega),
        if_pos (show 192 + c.toNat / 64 < 224 by omega)]
      show (if 128 ≤ 128 + c.toNat % 64 ∧ 128 + c.toNat % 64 < 192 then
          some (Char.ofNat ((192 + c.toNat / 64 - 192) * 64 + (128 + c.toNat % 64 - 128)), r)
        else none) = some (c, r)
      rw [if_pos (by omega)]
      have he : (192 + c.toNat / 64 - 192) * 64 + (128 + c.toNat % 64 - 128) = c.toNat := by
        omega
      rw [he, Char.ofNat_toNat]
    · rw [if_neg h2]
      by_cases h3 : c.toNat < 65536
      · rw [if_pos h3]
        show utf8DecodeOne ((224 + c.toNat / 4096) :: (128 + c.toNat / 64 % 64)
          :: (128 + c.toNat % 64) :: r) = some (c, r)
        simp only [utf8DecodeOne]
        rw [if_neg (show ¬(224 + c.toNat / 4096 < 128) by omega),
          if_neg (show ¬(224 + c.toNat / 4096 < 192) by omega),
          if_neg (show ¬(224 + c.toNat / 4096 < 224) by omega),
          if_pos (show 224 + c.toNat / 4096 < 240 by omega)]
        show (if (128 ≤ 128 + c.toNat / 64 % 64 ∧ 128 + c.toNat / 64 % 64 < 192)
            ∧ (128 ≤ 128 + c.toNat % 64 ∧ 128 + c.toNat % 64 < 192) then
            some (Char.ofNat ((224 + c.toNat / 4096 - 224) * 4096
              + (128 + c.toNat / 64 % 64 - 128) * 64 + (128 + c.toNat % 64 - 128)), r)
          else none) = some (c, r)
        rw [if_pos (by omega)]
        have he : (224 + c.toNat / 4096 - 224) * 4096
            + (128 + c.toNat / 64 % 64 - 128) * 64 + (128 + c.toNat % 64 - 128)
            = c.toNat := by omega
        rw [he, Char.ofNat_toNat]
      · rw [if_neg h3]
        show utf8DecodeOne ((240 + c.toNat / 262144) :: (128 + c.toNat / 4096 % 64)
          :: (128 + c.toNat / 64 % 64) :: (128 + c.toNat % 64) :: r) = some (c, r)
        simp only [utf8DecodeOne]
        rw [if_neg (show ¬(240 + c.toNat / 262144 < 128) by omega),
          if_neg (show ¬(240 + c.toNat / 262144 < 192) by omega),
          if_neg (show ¬(240 + c.toNat / 262144 < 224) by omega),
          if_neg (show ¬(240 + c.toNat / 262144 < 240) by omega),
          if_pos (show 240 + c.toNat / 262144 < 248 by omega)]
        show (if (128 ≤ 128 + c.toNat / 4096 % 64 ∧ 128 + c.toNat / 4096 % 64 < 192)
            ∧ (128 ≤ 128 + c.toNat / 64 % 64 ∧ 128 + c.toNat / 64 % 64 < 192)
            ∧ (128 ≤ 128 + c.toNat % 64 ∧ 128 + c.toNat % 64 < 192) then
            some (Char.ofNat ((240 + c.toNat / 262144 - 240) * 262144
              + (128 + c.toNat / 4096 % 64 - 128) * 4096
              + (128 + c.toNat / 64 % 64 - 128) * 64 + (128 + c.toNat % 64 - 128)), r)
          else none) = some (c, r)
        rw [if_pos (by omega)]
        have he : (240 + c.toNat / 262144 - 240) * 262144
            + (128 + c.toNat / 4096 % 64 - 128) * 4096
            + (128 + c.toNat / 64 % 64 - 128) * 64 + (128 + c.toNat % 64 - 128)
            = c.toNat := by omega
        rw [he, Char.ofNat_toNat]

theorem length_le_flatMap_utf8 (cs : List Char) :
    cs.length ≤ (cs.flatMap utf8EncodeChar).length := by
  induction cs with
  | nil => simp
  | cons c rest ih =>
    have h := utf8EncodeChar_ne_nil c
    have : 1 ≤ (utf8EncodeChar c).length := by
      cases hc : utf8EncodeChar c with
      | nil => exact absurd hc h
      | cons x xs => simp
    simp only [List.flatMap_cons, List.length_cons, List.length_append]
    omega

theorem utf8DecodeFuel_step (f : Nat) (l : List Nat) (h : l ≠ []) :
    utf8DecodeFuel (f + 1) l
      = match utf8DecodeOne l with
        | none => none
        | some (c, rest) => (utf8DecodeFuel f rest).map fun cs => c :: cs := by
  cases l with
  | nil => exact absurd rfl h
  | cons b bs => rfl

theorem utf8DecodeFuel_encode (cs : List Char) :
    ∀ fuel, cs.length ≤ fuel →
      utf8DecodeFuel fuel (cs.flatMap utf8EncodeChar) = some cs := by
  induction cs with
  | nil => intro fuel _; cases fuel <;> rfl
  | cons c rest ih =>
    intro fuel hf
    cases fuel with
    | zero => simp at hf
    | succ f =>
      have hne : utf8EncodeChar c ++ rest.flatMap utf8EncodeChar ≠ [] := by
        intro hcon
        exact utf8EncodeChar_ne_nil c (List.append_eq_nil.mp hcon).1
      rw [List.flatMap_cons, utf8DecodeFuel_step f _ hne, utf8DecodeOne_encode]
      show Option.map (fun cs => c :: cs) (utf8DecodeFuel f (rest.flatMap utf8EncodeChar))
        = some (c :: rest)
      rw [ih f (by simp at hf; omega)]
      rfl

theorem utf8Decode_encode (cs : List Char) :
    utf8Decode (cs.flatMap utf8EncodeChar) = some cs :=
  utf8DecodeFuel_encode cs _ (length_le_flatMap_utf8 cs)

/-! ## Percent-encoding round trip -/

theorem isSafeByte_iff (b : Nat) : isSafeByte b = true ↔
    (48 ≤ b ∧ b ≤ 57) ∨ (65 ≤ b ∧ b ≤ 90) ∨ (97 ≤ b ∧ b ≤ 122)
    ∨ b = 45 ∨ b = 46 ∨ b = 95 ∨ b = 126 := by
  simp only [isSafeByte, Bool.or_eq_true, Bool.and_eq_true, decide_eq_true_eq, beq_iff_eq]
  tauto

theorem hexDigit_range {n : Nat} (h : n < 16) :
    (48 ≤ hexDigit n ∧ hexDigit n ≤ 57) ∨ (65 ≤ hexDigit n ∧ hexDigit n ≤ 70) := by
  unfold hexDigit
  split_ifs <;> omega

theorem hexDigit_isHex {n : Nat} (h : n < 16) : isHexDigitByte (hexDigit n) = true := by
  have := hexDigit_range h
  simp only [isHexDigitByte, Bool.or_eq_true, Bool.and_eq_true, decide_eq_true_eq]
  omega

theorem hexVal_hexDigit {n : Nat} (h : n < 16) : hexVal (hexDigit n) = n := by
  unfold hexDigit hexVal
  split_ifs <;> omega

theorem quotePlus_length (bs : List Nat) : bs.length ≤ (quotePlusBytes bs).length := by
  induction bs with
  | nil => simp [quotePlusBytes]
  | cons b rest ih =>
    simp only [quotePlusBytes, List.length_append, List.length_cons]
    split_ifs <;> simp only [List.length_cons, List.length_nil] <;> omega

theorem unquote_quote_fuel (bs : List Nat) :
    ∀ fuel, (∀ b ∈ bs, b < 256) → bs.length ≤ fuel →
      unquotePlusFuel fuel (quotePlusBytes bs) = bs := by
  induction bs with
  | nil => intro fuel _ _; cases fuel <;> rfl
  | cons b rest ih =>
    intro fuel hmem hlen
    have hb : b < 256 := hmem b (List.mem_cons_self b rest)
    have hrest : ∀ x ∈ rest, x < 256 := fun x hx => hmem x (List.mem_cons_of_mem b hx)
    cases fuel with
    | zero => simp at hlen
    | succ f =>
      have hlen' : rest.length ≤ f := by simp at hlen; omega
      simp only [quotePlusBytes]
      by_cases h32 : b == 32
      · rw [if_pos h32]
        show unquotePlusFuel (f + 1) (43 :: quotePlusBytes rest) = b :: rest
        simp only [unquotePlusFuel]
        rw [if_pos (show ((43 : Nat) == 43) = true from rfl)]
        rw [ih f hrest hlen']
        have hbeq : b = 32 := by simpa using h32
        rw [hbeq]
      · rw [if_neg h32]
        by_cases hsafe : isSafeByte b
        · rw [if_pos hsafe]
          show unquotePlusFuel (f + 1) (b :: quotePlusBytes rest) = b :: rest
          have hs := (isSafeByte_iff b).mp hsafe
          have hb43 : ¬((b == 43) = true) := by simp only [beq_iff_eq]; omega
          have hb37 : ¬((b == 37) = true) := by simp only [beq_iff_eq]; omega
          simp only [unquotePlusFuel]
          rw [if_neg hb43, if_neg hb37, ih f hrest hlen']
        · rw [if_neg hsafe]
          show unquotePlusFuel (f + 1)
            (37 :: hexDigit (b / 16) :: hexDigit (b % 16) :: quotePlusBytes rest)
            = b :: rest
          simp only [unquotePlusFuel]
          rw [if_neg (show ¬(((37 : Nat) == 43) = true) from by decide),
            if_pos (show ((37 : Nat) == 37) = true from rfl)]
          show (if isHexDigitByte (hexDigit (b / 16)) && isHexDigitByte (hexDigit (b % 16)) then
              (hexVal (hexDigit (b / 16)) * 16 + hexVal (hexDigit (b % 16)))
                :: unquotePlusFuel f (quotePlusBytes rest)
            else 37 :: unquotePlusFuel f
              (hexDigit (b / 16) :: hexDigit (b % 16) :: quotePlusBytes rest))
            = b :: rest
          rw [if_pos (by rw [hexDigit_isHex (by omega), hexDigit_isHex (by omega)]; rfl)]
          rw [hexVal_hexDigit (by omega), hexVal_hexDigit (by omega), ih f hrest hlen']
          have hbeq : b / 16 * 16 + b % 16 = b := by omega
          rw [hbeq]

theorem unquote_quote_bytes (bs : List Nat) (h : ∀ b ∈ bs, b < 256) :
    unquotePlusBytes (quotePlusBytes bs) = bs :=
  unquote_quote_fuel bs _ h (quotePlus_length bs)

theorem quotePlusBytes_mem (bs : List Nat) (h : ∀ b ∈ bs, b < 256) :
    ∀ x ∈ quotePlusBytes bs, x < 128 ∧ x ≠ 38 ∧ x ≠ 61 ∧ x ≠ 32 ∧ x ≠ 63 := by
  induction bs with
  | nil => simp [quotePlusBytes]
  | cons b rest ih =>
    have hb : b < 256 := h b (List.mem_cons_self b rest)
    have hrest : ∀ x ∈ rest, x < 256 := fun x hx => h x (List.mem_cons_of_mem b hx)
    intro x hx
    simp only [quotePlusBytes, List.mem_append] at hx
    rcases hx with hx | hx
    · split_ifs at hx with h32 hsafe
      · simp at hx
        omega
      · simp at hx
        have hs := (isSafeByte_iff b).mp hsafe
        omega
      · simp at hx
        have r1 := hexDigit_range (show b / 16 < 16 by omega)
        have r2 := hexDigit_range (show b % 16 < 16 by omega)
        omega
    · exact ih hrest x hx

/-! ## `quote_plus` / `unquote_plus` string-level facts -/

theorem strBytes_lt_256 (s : String) : ∀ b ∈ strBytes s, b < 256 := by
  intro b hb
  simp only [strBytes, List.mem_flatMap] at hb
  obtain ⟨c, _, hc⟩ := hb
  exact utf8EncodeChar_lt_256 c b hc

theorem strBytes_append (s t : String) :
    strBytes (s ++ t) = strBytes s ++ strBytes t := by
  simp [strBytes, String.data_append, List.flatMap_append]

theorem asciiString_append (a b : List Nat) :
    asciiString (a ++ b) = asciiString a ++ asciiString b := by
  simp only [asciiString, List.map_append]
  rfl

theorem asciiString_toNat (bs : List Nat) (h : ∀ b ∈ bs, b < 128) :
    (asciiString bs).data.map Char.toNat = bs := by
  induction bs with
  | nil => rfl
  | cons b rest ih =>
    have hb : b < 128 := h b (List.mem_cons_self b rest)
    show Char.toNat (Char.ofNat b) :: (rest.map Char.ofNat).map Char.toNat = b :: rest
    rw [char_toNat_ofNat (by omega)]
    congr 1
    exact ih (fun x hx => h x (List.mem_cons_of_mem b hx))

theorem quote_plus_roundtrip (s : String) : unquote_plus (quote_plus s) = some s := by
  unfold unquote_plus quote_plus
  rw [asciiString_toNat _
    (fun b hb => (quotePlusBytes_mem (strBytes s) (strBytes_lt_256 s) b hb).1)]
  rw [unquote_quote_bytes _ (strBytes_lt_256 s)]
  rw [show strBytes s = s.data.flatMap utf8EncodeChar from rfl, utf8Decode_encode]
  rfl

theorem quotePlusBytes_append (a b : List Nat) :
    quotePlusBytes (a ++ b) = quotePlusBytes a ++ quotePlusBytes b := by
  induction a with
  | nil => rfl
  | cons x xs ih =>
    show (if (x == 32) = true then [43] else if isSafeByte x = true then [x]
        else [37, hexDigit (x / 16), hexDigit (x % 16)]) ++ quotePlusBytes (xs ++ b)
      = ((if (x == 32) = true then [43] else if isSafeByte x = true then [x]
        else [37, hexDigit (x / 16), hexDigit (x % 16)]) ++ quotePlusBytes xs)
        ++ quotePlusBytes b
    rw [ih, List.append_assoc]

theorem quote_plus_append (s t : String) :
    quote_plus (s ++ t) = quote_plus s ++ quote_plus t := by
  unfold quote_plus
  rw [strBytes_append, quotePlusBytes_append, asciiString_append]

theorem quote_plus_space : quote_plus " " = "+" := rfl

/-! ## Query-string parsing facts -/

theorem splitFirst_append (c : Char) (a b : List Char) (h : c ∉ a) :
    splitFirst c (a ++ c :: b) = some (a, b) := by
  induction a with
  | nil => simp [splitFirst]
  | cons x xs ih =>
    simp only [List.mem_cons, not_or] at h
    simp only [List.cons_append, splitFirst, List.append_eq]
    rw [if_neg (fun hx => h.1 hx.symm), ih h.2]

theorem splitOnCharAux_not_mem (c : Char) (l : List Char) (h : c ∉ l) :
    ∀ acc, splitOnCharAux c l acc = [acc.reverse ++ l] := by
  induction l with
  | nil => intro acc; simp [splitOnCharAux]
  | cons x xs ih =>
    intro acc
    simp only [List.mem_cons, not_or] at h
    simp only [splitOnCharAux]
    rw [if_neg (fun hx => h.1 hx.symm), ih h.2]
    simp

theorem splitOnCharAux_append (c : Char) (a b : List Char) (h : c ∉ a) :
    ∀ acc, splitOnCharAux c (a ++ c :: b) acc
      = (acc.reverse ++ a) :: splitOnChar c b := by
  induction a with
  | nil =>
    intro acc
    simp only [List.nil_append, splitOnCharAux, if_pos rfl]
    simp [splitOnChar]
  | cons x xs ih =>
    intro acc
    simp only [List.mem_cons, not_or] at h
    simp only [List.cons_append, splitOnCharAux, List.append_eq]
    rw [if_neg (fun hx => h.1 hx.symm), ih h.2]
    simp

theorem splitOnChar_append (c : Char) (a b : List Char) (h : c ∉ a) :
    splitOnChar c (a ++ c :: b) = a :: splitOnChar c b := by
  show splitOnCharAux c (a ++ c :: b) [] = a :: splitOnChar c b
  rw [splitOnCharAux_append c a b h []]
  simp

theorem splitOnChar_not_mem (c : Char) (l : List Char) (h : c ∉ l) :
    splitOnChar c l = [l] := by
  show splitOnCharAux c l [] = [l]
  rw [splitOnCharAux_not_mem c l h []]
  simp

theorem parseParam_eq (k v : List Char) (h : '=' ∉ k) :
    parseParam (k ++ '=' :: v) = (String.mk k, String.mk v) := by
  unfold parseParam
  rw [splitFirst_append '=' k v h]

/-! ## Substring facts -/

theorem headMatches_append (s r : List Char) : headMatches s (s ++ r) = true := by
  induction s with
  | nil => rfl
  | cons x xs ih => simp [headMatches, ih]

theorem charsContain_append (a s b : List Char) :
    charsContain (a ++ s ++ b) s = true := by
  induction a with
  | nil =>
    cases s with
    | nil =>
      cases b with
      | nil => rfl
      | cons y ys => simp [charsContain, headMatches]
    | cons x xs =>
      have hm := headMatches_append (x :: xs) b
      rw [List.cons_append] at hm
      simp [charsContain, hm]
  | cons y ys ih =>
    simp only [List.cons_append, charsContain, List.append_eq, ih, Bool.or_true]

theorem strContains_append (a s b : String) :
    strContains (a ++ s ++ b) s = true := by
  unfold strContains
  rw [String.data_append, String.data_append]
  exact charsContain_append a.data s.data b.data

/-! ## The built URL's query parameters -/

theorem quote_plus_chars (s : String) :
    ∀ ch ∈ (quote_plus s).data, ch ≠ '&' ∧ ch ≠ '=' ∧ ch ≠ ' ' := by
  intro ch hch
  obtain ⟨b, hb, hbc⟩ := List.mem_map.mp hch
  have hm := quotePlusBytes_mem (strBytes s) (strBytes_lt_256 s) b hb
  subst hbc
  refine ⟨fun hc => ?_, fun hc => ?_, fun hc => ?_⟩
  · have h2 := congrArg Char.toNat hc
    rw [char_toNat_ofNat (by omega)] at h2
    have h3 : ('&' : Char).toNat = 38 := rfl
    rw [h3] at h2
    omega
  · have h2 := congrArg Char.toNat hc
    rw [char_toNat_ofNat (by omega)] at h2
    have h3 : ('=' : Char).toNat = 61 := rfl
    rw [h3] at h2
    omega
  · have h2 := congrArg Char.toNat hc
    rw [char_toNat_ofNat (by omega)] at h2
    have h3 : (' ' : Char).toNat = 32 := rfl
    rw [h3] at h2
    omega

theorem queryParams_shape (url : String) (B E U K : List Char)
    (hurl : url.data = B ++ '?' :: (('q' :: '=' :: E)
      ++ '&' :: (('u' :: 'n' :: 'i' :: 't' :: 's' :: '=' :: U)
      ++ '&' :: ('a' :: 'p' :: 'p' :: 'i' :: 'd' :: '=' :: K))))
    (hB : '?' ∉ B) (hE : '&' ∉ E) (hU : '&' ∉ U) (hK : '&' ∉ K) :
    queryParams url
      = [(String.mk ['q'], String.mk E),
         (String.mk ['u', 'n', 'i', 't', 's'], String.mk U),
         (String.mk ['a', 'p', 'p', 'i', 'd'], String.mk K)] := by
  have hq : '&' ∉ 'q' :: '=' :: E := by
    simp only [List.mem_cons, not_or]
    exact ⟨by decide, by decide, hE⟩
  have hu : '&' ∉ 'u' :: 'n' :: 'i' :: 't' :: 's' :: '=' :: U := by
    simp only [List.mem_cons, not_or]
    exact ⟨by decide, by decide, by decide, by decide, by decide, by decide, hU⟩
  have hk : '&' ∉ 'a' :: 'p' :: 'p' :: 'i' :: 'd' :: '=' :: K := by
    simp only [List.mem_cons, not_or]
    exact ⟨by decide, by decide, by decide, by decide, by decide, by decide, hK⟩
  have hs1 := splitOnChar_append '&' ('q' :: '=' :: E)
    (('u' :: 'n' :: 'i' :: 't' :: 's' :: '=' :: U)
      ++ '&' :: ('a' :: 'p' :: 'p' :: 'i' :: 'd' :: '=' :: K)) hq
  have hs2 := splitOnChar_append '&' ('u' :: 'n' :: 'i' :: 't' :: 's' :: '=' :: U)
    ('a' :: 'p' :: 'p' :: 'i' :: 'd' :: '=' :: K) hu
  have hs3 := splitOnChar_not_mem '&' ('a' :: 'p' :: 'p' :: 'i' :: 'd' :: '=' :: K) hk
  unfold queryParams
  rw [hurl, splitFirst_append '?' B _ hB]
  show (splitOnChar '&' (('q' :: '=' :: E)
      ++ '&' :: (('u' :: 'n' :: 'i' :: 't' :: 's' :: '=' :: U)
      ++ '&' :: ('a' :: 'p' :: 'p' :: 'i' :: 'd' :: '=' :: K)))).map parseParam
    = [(String.mk ['q'], String.mk E),
       (String.mk ['u', 'n', 'i', 't', 's'], String.mk U),
       (String.mk ['a', 'p', 'p', 'i', 'd'], String.mk K)]
  rw [hs1, hs2, hs3]
  simp only [List.map_cons, List.map_nil]
  rw [show parseParam ('q' :: '=' :: E) = (String.mk ['q'], String.mk E) from by
    have h := parseParam_eq ['q'] E (by decide)
    simpa using h]
  rw [show parseParam ('u' :: 'n' :: 'i' :: 't' :: 's' :: '=' :: U)
      = (String.mk ['u', 'n', 'i', 't', 's'], String.mk U) from by
    have h := parseParam_eq ['u', 'n', 'i', 't', 's'] U (by decide)
    simpa using h]
  rw [show parseParam ('a' :: 'p' :: 'p' :: 'i' :: 'd' :: '=' :: K)
      = (String.mk ['a', 'p', 'p', 'i', 'd'], String.mk K) from by
    have h := parseParam_eq ['a', 'p', 'p', 'i', 'd'] K (by decide)
    simpa using h]

theorem queryParams_build (config : IniConfig) (key : String) (city : List String)
    (imperial : Bool) (url : String)
    (hkey : get_api_key config = .ok key) (hamp : '&' ∉ key.data)
    (hurl : build_weather_query config city imperial = .ok url) :
    queryParams url
      = [("q", quote_plus (String.intercalate " " city)),
         ("units", if imperial then "imperial" else "metric"),
         ("appid", key)] := by
  have hb : build_weather_query config city imperial
      = .ok (BASE_WEATHER_API_URL ++ "?q=" ++ quote_plus (String.intercalate " " city)
        ++ "&units=" ++ (if imperial then "imperial" else "metric")
        ++ "&appid=" ++ key) := by
    unfold build_weather_query
    rw [hkey]
  rw [hb] at hurl
  have hup : url = BASE_WEATHER_API_URL ++ "?q=" ++ quote_plus (String.intercalate " " city)
      ++ "&units=" ++ (if imperial then "imperial" else "metric")
      ++ "&appid=" ++ key := (Except.ok.inj hurl).symm
  subst hup
  have hE : '&' ∉ (quote_plus (String.intercalate " " city)).data :=
    fun hm => (quote_plus_chars _ '&' hm).1 rfl
  have hU : '&' ∉ (if imperial then ("imperial" : String) else "metric").data := by
    cases imperial <;> decide
  have hdata : (BASE_WEATHER_API_URL ++ "?q=" ++ quote_plus (String.intercalate " " city)
      ++ "&units=" ++ (if imperial then "imperial" else "metric")
      ++ "&appid=" ++ key).data
      = BASE_WEATHER_API_URL.data
        ++ '?' :: (('q' :: '=' :: (quote_plus (String.intercalate " " city)).data)
        ++ '&' :: (('u' :: 'n' :: 'i' :: 't' :: 's' :: '='
            :: (if imperial then ("imperial" : String) else "metric").data)
        ++ '&' :: ('a' :: 'p' :: 'p' :: 'i' :: 'd' :: '=' :: key.data))) := by
    simp only [String.data_append, List.append_assoc]
    rfl
  have h := queryParams_shape
    (BASE_WEATHER_API_URL ++ "?q=" ++ quote_plus (String.intercalate " " city)
      ++ "&units=" ++ (if imperial then "imperial" else "metric") ++ "&appid=" ++ key)
    BASE_WEATHER_API_URL.data (quote_plus (String.intercalate " " city)).data
    (if imperial then ("imperial" : String) else "metric").data key.data
    hdata (by decide) hE hU hamp
  rw [h]

/-! ## Claim theorems -/

/-- Claim C1: condition-code classification is total and deterministic:
codes in [200,300) select red, [300,400) cyan, [500,600) blue,
[600,700) white, [700,800) blue, [800,801) yellow, [801,900) white, and
every integer outside all of these ranges (including the 400-499 gap and
codes below 200 or at 900 and above) selects the default/reset style
rather than failing. -/
theorem claim_C1_condition_code_classification (c : Int) :
    (200 ≤ c → c < 300 → select_colour c = RED) ∧
    (300 ≤ c → c < 400 → select_colour c = CYAN) ∧
    (500 ≤ c → c < 600 → select_colour c = BLUE) ∧
    (600 ≤ c → c < 700 → select_colour c = WHITE) ∧
    (700 ≤ c → c < 800 → select_colour c = BLUE) ∧
    (800 ≤ c → c < 801 → select_colour c = YELLOW) ∧
    (801 ≤ c → c < 900 → select_colour c = WHITE) ∧
    (c < 200 ∨ (400 ≤ c ∧ c < 500) ∨ 900 ≤ c → select_colour c = RESET) := by
  simp only [select_colour, rangeContains, THUNDERSTORM, DRIZZLE, RAIN, SNOW, ATMOSPHERE,
    CLEAR, CLOUDY, Bool.and_eq_true, decide_eq_true_eq]
  refine ⟨fun h1 h2 => ?_, fun h1 h2 => ?_, fun h1 h2 => ?_, fun h1 h2 => ?_,
    fun h1 h2 => ?_, fun h1 h2 => ?_, fun h1 h2 => ?_, fun h => ?_⟩ <;>
    split_ifs <;> first | rfl | (exfalso; omega)

/-- Witness for C1 at concrete codes 250, 350, 550, 650, 750, 800, 850 and
at the unmapped codes 150 (below), 450 (the gap) and 950 (above). -/
theorem claim_C1_witness :
    select_colour 250 = RED ∧ select_colour 350 = CYAN ∧ select_colour 550 = BLUE
    ∧ select_colour 650 = WHITE ∧ select_colour 750 = BLUE
    ∧ select_colour 800 = YELLOW ∧ select_colour 850 = WHITE
    ∧ select_colour 150 = RESET ∧ select_colour 450 = RESET
    ∧ select_colour 950 = RESET :=
  ⟨(claim_C1_condition_code_classification 250).1 (by decide) (by decide),
   (claim_C1_condition_code_classification 350).2.1 (by decide) (by decide),
   (claim_C1_condition_code_classification 550).2.2.1 (by decide) (by decide),
   (claim_C1_condition_code_classification 650).2.2.2.1 (by decide) (by decide),
   (claim_C1_condition_code_classification 750).2.2.2.2.1 (by decide) (by decide),
   (claim_C1_condition_code_classification 800).2.2.2.2.2.1 (by decide) (by decide),
   (claim_C1_condition_code_classification 850).2.2.2.2.2.2.1 (by decide) (by decide),
   (claim_C1_condition_code_classification 150).2.2.2.2.2.2.2 (Or.inl (by decide)),
   (claim_C1_condition_code_classification 450).2.2.2.2.2.2.2 (Or.inr (Or.inl (by decide))),
   (claim_C1_condition_code_classification 950).2.2.2.2.2.2.2 (Or.inr (Or.inr (by decide)))⟩

/-- Claim C2: for every HTTP error status, `get_weather_data` exits without
reading or parsing the response body (its result is independent of the body
and of the JSON decoder), with the message determined exactly by the status
code: 401 gives the invalid-API-key message, 404 the city-not-found
message, and any other status a message containing the numeric code; the
three paths are mutually exclusive and exhaustive. -/
theorem claim_C2_http_error_paths {α : Type}
    (json_loads json_loads2 : String → Option α) (code : Nat) (body body2 : String) :
    get_weather_data json_loads (.httpError code body)
      = get_weather_data json_loads2 (.httpError code body2) ∧
    (code = 401 → get_weather_data json_loads (.httpError code body)
      = .error (.exitMsg "Access denied.  Check your API key.")) ∧
    (code = 404 → get_weather_data json_loads (.httpError code body)
      = .error (.exitMsg "Can't find weather data for this city.")) ∧
    (code ≠ 401 → code ≠ 404 → get_weather_data json_loads (.httpError code body)
      = .error (.exitMsg ("Something went wrong... (" ++ toString code ++ ")"))) := by
  refine ⟨rfl, fun h => ?_, fun h => ?_, fun h1 h2 => ?_⟩
  · subst h; rfl
  · subst h; rfl
  · have hb1 : ¬((code == 401) = true) := by simpa using h1
    have hb2 : ¬((code == 404) = true) := by simpa using h2
    simp only [get_weather_data]
    rw [if_neg hb1, if_neg hb2]

/-- Witness for C2 at status codes 401, 404 and 500. -/
theorem claim_C2_witness :
    get_weather_data (fun _ => (none : Option Nat)) (.httpError 401 "ignored")
      = .error (.exitMsg "Access denied.  Check your API key.") ∧
    get_weather_data (fun _ => (none : Option Nat)) (.httpError 404 "ignored")
      = .error (.exitMsg "Can't find weather data for this city.") ∧
    get_weather_data (fun _ => (none : Option Nat)) (.httpError 500 "ignored")
      = .error (.exitMsg ("Something went wrong... (" ++ toString 500 ++ ")")) :=
  ⟨(claim_C2_http_error_paths (fun _ => (none : Option Nat)) (fun _ => (none : Option Nat))
      401 "ignored" "ignored").2.1 rfl,
   (claim_C2_http_error_paths (fun _ => (none : Option Nat)) (fun _ => (none : Option Nat))
      404 "ignored" "ignored").2.2.1 rfl,
   (claim_C2_http_error_paths (fun _ => (none : Option Nat)) (fun _ => (none : Option Nat))
      500 "ignored" "ignored").2.2.2 (by decide) (by decide)⟩

/-- Claim C3 (code bug): on the synthetic Paris response with
`imperial = false` the Presenter output contains "Paris" and "Clear sky",
but the temperature renders as "21.5Â°C" (with a stray `Â` before the
degree sign, coming from the double-encoded degree sign in line 158 of the
source), so the claimed substring "21.5°C" does not occur in the output. -/
theorem claim_C3_paris_output :
    ∃ out, display_weather_info
        ⟨some "Paris", some [⟨800, "clear sky"⟩], some ⟨some "21.5"⟩, some ⟨some "FR"⟩⟩ false
        = .ok out
      ∧ strContains out "Paris" = true
      ∧ strContains out "Clear sky" = true
      ∧ strContains out ("21.5" ++ "Â°" ++ "C") = true
      ∧ strContains out ("21.5" ++ "°" ++ "C") = false := by
  refine ⟨render_line "Paris" 800 "clear sky" "21.5" false, rfl, ?_, ?_, ?_, ?_⟩ <;> decide

/-- Claim C4: the Query Builder joins city words with single spaces and
percent-encodes the joined name as the `q` query value of the built URL;
decoding that value returns exactly the space-joined city name. -/
theorem claim_C4_encode_roundtrip (config : IniConfig) (key : String) (city : List String)
    (imperial : Bool) (url : String)
    (hkey : get_api_key config = .ok key) (hamp : '&' ∉ key.data)
    (hcity : city ≠ [])
    (hurl : build_weather_query config city imperial = .ok url) :
    qValue url = some (quote_plus (String.intercalate " " city)) ∧
    (qValue url).bind unquote_plus = some (String.intercalate " " city) := by
  have h := queryParams_build config key city imperial url hkey hamp hurl
  have hq : qValue url = some (quote_plus (String.intercalate " " city)) := by
    unfold qValue
    rw [h]
    rfl
  refine ⟨hq, ?_⟩
  rw [hq]
  simpa using quote_plus_roundtrip (String.intercalate " " city)

/-- Witness for C4 on the city ["New", "York"] and api key "abc123". -/
theorem claim_C4_witness :
    qValue "http://api.openweathermap.org/data/2.5/weather?q=New+York&units=metric&appid=abc123"
      = some (quote_plus (String.intercalate " " ["New", "York"])) ∧
    (qValue "http://api.openweathermap.org/data/2.5/weather?q=New+York&units=metric&appid=abc123").bind
        unquote_plus
      = some (String.intercalate " " ["New", "York"]) :=
  claim_C4_encode_roundtrip ⟨[("openweather", [("api_key", "abc123")])]⟩ "abc123"
    ["New", "York"] false
    "http://api.openweathermap.org/data/2.5/weather?q=New+York&units=metric&appid=abc123"
    rfl (by decide) (by decide) rfl

/-- Claim C5: a missing credential file/section or a missing api_key field
fails with the corresponding `KeyError` before any request URL is
constructed (`build_weather_query` propagates the error and produces no
URL), the whole pipeline is then independent of the HTTP transport (no
network call), and the failure is distinct from every `sys.exit` message of
the network error paths. -/
theorem claim_C5_missing_credential (config : IniConfig) (city : List String)
    (imperial : Bool) :
    (config.sections.lookup "openweather" = none →
      get_api_key config = .error (.keyError "openweather") ∧
      build_weather_query config city imperial = .error (.keyError "openweather")) ∧
    (∀ sec, config.sections.lookup "openweather" = some sec →
      sec.lookup "api_key" = none →
      get_api_key config = .error (.keyError "api_key") ∧
      build_weather_query config city imperial = .error (.keyError "api_key")) ∧
    (∀ k m, AppError.keyError k ≠ AppError.exitMsg m) ∧
    (∀ e fetch fetch2 json_loads, get_api_key config = .error e →
      run_weather config fetch json_loads city imperial = .error e ∧
      run_weather config fetch json_loads city imperial
        = run_weather config fetch2 json_loads city imperial) := by
  refine ⟨fun h => ?_, fun sec h1 h2 => ?_, fun k m => by simp,
    fun e fetch fetch2 jl he => ?_⟩
  · have hg : get_api_key config = .error (.keyError "openweather") := by
      unfold get_api_key
      rw [h]
    exact ⟨hg, by unfold build_weather_query; rw [hg]⟩
  · have hg : get_api_key config = .error (.keyError "api_key") := by
      unfold get_api_key
      rw [h1]
      show (match sec.lookup "api_key" with
        | none => Except.error (AppError.keyError "api_key")
        | some k => Except.ok k) = Except.error (AppError.keyError "api_key")
      rw [h2]
    exact ⟨hg, by unfold build_weather_query; rw [hg]⟩
  · have hb : build_weather_query config city imperial = .error e := by
      unfold build_weather_query
      rw [he]
    have hr1 : run_weather config fetch jl city imperial = .error e := by
      unfold run_weather
      rw [hb]
      rfl
    have hr2 : run_weather config fetch2 jl city imperial = .error e := by
      unfold run_weather
      rw [hb]
      rfl
    exact ⟨hr1, hr1.trans hr2.symm⟩

/-- Witness for C5 on the empty configuration and on a configuration whose
openweather section lacks the api_key field. -/
theorem claim_C5_witness :
    (get_api_key ⟨[]⟩ = .error (.keyError "openweather") ∧
      build_weather_query ⟨[]⟩ ["Paris"] false = .error (.keyError "openweather")) ∧
    (get_api_key ⟨[("openweather", [])]⟩ = .error (.keyError "api_key") ∧
      build_weather_query ⟨[("openweather", [])]⟩ ["Paris"] false
        = .error (.keyError "api_key")) ∧
    AppError.keyError "openweather"
      ≠ AppError.exitMsg "Access denied.  Check your API key." ∧
    (run_weather ⟨[]⟩ (fun _ => .success "{}") (fun _ => none) ["Paris"] false
      = .error (.keyError "openweather") ∧
     run_weather ⟨[]⟩ (fun _ => .success "{}") (fun _ => none) ["Paris"] false
      = run_weather ⟨[]⟩ (fun _ => .httpError 500 "") (fun _ => none) ["Paris"] false) :=
  ⟨(claim_C5_missing_credential ⟨[]⟩ ["Paris"] false).1 rfl,
   (claim_C5_missing_credential ⟨[("openweather", [])]⟩ ["Paris"] false).2.1 [] rfl rfl,
   (claim_C5_missing_credential ⟨[]⟩ ["Paris"] false).2.2.1 "openweather"
     "Access denied.  Check your API key.",
   (claim_C5_missing_credential ⟨[]⟩ ["Paris"] false).2.2.2 (.keyError "openweather")
     (fun _ => .success "{}") (fun _ => .httpError 500 "") (fun _ => none) rfl⟩

/-- Claim C6: the built URL carries the query parameter `units=imperial`
exactly when the imperial flag is set, and `units=metric` exactly when it
is not. -/
theorem claim_C6_units_param (config : IniConfig) (key : String) (city : List String)
    (imperial : Bool) (url : String)
    (hkey : get_api_key config = .ok key) (hamp : '&' ∉ key.data)
    (hurl : build_weather_query config city imperial = .ok url) :
    (("units", "imperial") ∈ queryParams url ↔ imperial = true) ∧
    (("units", "metric") ∈ queryParams url ↔ imperial = false) := by
  have h := queryParams_build config key city imperial url hkey hamp hurl
  rw [h]
  cases imperial <;> simp

/-- Witness for C6 in both unit modes with api key "abc123". -/
theorem claim_C6_witness :
    ((("units", "imperial")
        ∈ queryParams "http://api.openweathermap.org/data/2.5/weather?q=London&units=imperial&appid=abc123"
      ↔ true = true) ∧
     (("units", "metric")
        ∈ queryParams "http://api.openweathermap.org/data/2.5/weather?q=London&units=imperial&appid=abc123"
      ↔ true = false)) ∧
    ((("units", "imperial")
        ∈ queryParams "http://api.openweathermap.org/data/2.5/weather?q=London&units=metric&appid=abc123"
      ↔ false = true) ∧
     (("units", "metric")
        ∈ queryParams "http://api.openweathermap.org/data/2.5/weather?q=London&units=metric&appid=abc123"
      ↔ false = false)) :=
  ⟨claim_C6_units_param ⟨[("openweather", [("api_key", "abc123")])]⟩ "abc123" ["London"] true
     "http://api.openweathermap.org/data/2.5/weather?q=London&units=imperial&appid=abc123"
     rfl (by decide) rfl,
   claim_C6_units_param ⟨[("openweather", [("api_key", "abc123")])]⟩ "abc123" ["London"] false
     "http://api.openweathermap.org/data/2.5/weather?q=London&units=metric&appid=abc123"
     rfl (by decide) rfl⟩

/-- Claim C7: a successful HTTP status whose body fails to decode as JSON
exits with the unreadable-response message; a body that decodes is returned
as-is (generically in the decoded type, hence with no schema validation). -/
theorem claim_C7_json_decode {α : Type} (json_loads : String → Option α) (body : String) :
    (json_loads body = none → get_weather_data json_loads (.success body)
      = .error (.exitMsg "Couldn't read the server response.")) ∧
    (∀ j, json_loads body = some j →
      get_weather_data json_loads (.success body) = .ok j) := by
  refine ⟨fun h => ?_, fun j h => ?_⟩ <;> simp only [get_weather_data] <;> rw [h]

/-- Witness for C7 on a non-decoding body and on a decoding one. -/
theorem claim_C7_witness :
    get_weather_data (fun _ => (none : Option Nat)) (.success "not json")
      = .error (.exitMsg "Couldn't read the server response.") ∧
    get_weather_data (fun s => if s = "7" then some 7 else none) (.success "7") = .ok 7 :=
  ⟨(claim_C7_json_decode (fun _ => (none : Option Nat)) "not json").1 rfl,
   (claim_C7_json_decode (fun s => if s = "7" then some 7 else none) "7").2 7 (by decide)⟩

/-- Claim C8: a first weather entry with id 201 makes the Presenter select
the red color regardless of all other fields, and only the first entry of
the weather list influences the output (the tail is irrelevant). -/
theorem claim_C8_first_entry_red :
    (∀ (n t c : String) (e : WeatherEntry) (rest : List WeatherEntry) (imp : Bool),
      e.id = 201 →
      ∃ out, display_weather_info
          ⟨some n, some (e :: rest), some ⟨some t⟩, some ⟨some c⟩⟩ imp
        = .ok out ∧ strContains out RED = true) ∧
    (∀ (nm : Option String) (m : Option MainObj) (s : Option SysObj)
      (e : WeatherEntry) (rest rest2 : List WeatherEntry) (imp : Bool),
      display_weather_info ⟨nm, some (e :: rest), m, s⟩ imp
        = display_weather_info ⟨nm, some (e :: rest2), m, s⟩ imp) := by
  constructor
  · intro n t c e rest imp hid
    refine ⟨render_line n e.id e.description t imp, rfl, ?_⟩
    rw [hid]
    unfold render_line
    rw [show select_colour 201 = RED from rfl]
    exact strContains_append _ _ _
  · intro nm m s e rest rest2 imp
    cases nm with
    | none => rfl
    | some n =>
      cases m with
      | none => rfl
      | some mo =>
        cases mo with
        | mk t =>
          cases t with
          | none => rfl
          | some tv =>
            cases s with
            | none => rfl
            | some so =>
              cases so with
              | mk co =>
                cases co with
                | none => rfl
                | some cv => rfl

/-- Witness for C8 on a concrete thunderstorm response with a second
entry. -/
theorem claim_C8_witness :
    ∃ out, display_weather_info
        ⟨some "Oslo", some [⟨201, "thunderstorm"⟩, ⟨500, "rain"⟩], some ⟨some "3.1"⟩,
          some ⟨some "NO"⟩⟩ false
      = .ok out ∧ strContains out RED = true :=
  claim_C8_first_entry_red.1 "Oslo" "3.1" "NO" ⟨201, "thunderstorm"⟩ [⟨500, "rain"⟩]
    false rfl

/-- Claim C9: the Presenter reads `sys` / `sys.country` (their absence is a
runtime failure with the corresponding `KeyError`), yet the country value
never influences the output: two responses differing only in the country
value produce identical results. -/
theorem claim_C9_country_unused :
    (∀ (n t : String) (e : WeatherEntry) (rest : List WeatherEntry) (imp : Bool),
      display_weather_info ⟨some n, some (e :: rest), some ⟨some t⟩, none⟩ imp
        = .error (.keyError "sys")) ∧
    (∀ (n t : String) (e : WeatherEntry) (rest : List WeatherEntry) (imp : Bool),
      display_weather_info ⟨some n, some (e :: rest), some ⟨some t⟩, some ⟨none⟩⟩ imp
        = .error (.keyError "country")) ∧
    (∀ (nm : Option String) (w : Option (List WeatherEntry)) (m : Option MainObj)
      (c1 c2 : String) (imp : Bool),
      display_weather_info ⟨nm, w, m, some ⟨some c1⟩⟩ imp
        = display_weather_info ⟨nm, w, m, some ⟨some c2⟩⟩ imp) := by
  refine ⟨fun n t e rest imp => rfl, fun n t e rest imp => rfl,
    fun nm w m c1 c2 imp => ?_⟩
  cases nm with
  | none => rfl
  | some n =>
    cases w with
    | none => rfl
    | some ws =>
      cases ws with
      | nil => rfl
      | cons e rest =>
        cases m with
        | none => rfl
        | some mo =>
          cases mo with
          | mk t =>
            cases t with
            | none => rfl
            | some tv => rfl

/-- Claim C10: spaces in the joined city name are encoded as `+` (so
`quote_plus` splits around each space, producing a literal `+`), and the
built URL never contains a literal space character (for an api key without
spaces). -/
theorem claim_C10_plus_encoding (s1 s2 : String) (config : IniConfig) (key : String)
    (city : List String) (imperial : Bool) (url : String)
    (hkey : get_api_key config = .ok key) (hsp : ' ' ∉ key.data)
    (hurl : build_weather_query config city imperial = .ok url) :
    quote_plus (s1 ++ " " ++ s2) = quote_plus s1 ++ "+" ++ quote_plus s2 ∧
    ' ' ∉ url.data := by
  constructor
  · rw [quote_plus_append, quote_plus_append, quote_plus_space]
  · have hb : build_weather_query config city imperial
        = .ok (BASE_WEATHER_API_URL ++ "?q=" ++ quote_plus (String.intercalate " " city)
          ++ "&units=" ++ (if imperial then "imperial" else "metric")
          ++ "&appid=" ++ key) := by
      unfold build_weather_query
      rw [hkey]
    rw [hb] at hurl
    have hup : url = BASE_WEATHER_API_URL ++ "?q="
        ++ quote_plus (String.intercalate " " city)
        ++ "&units=" ++ (if imperial then "imperial" else "metric")
        ++ "&appid=" ++ key := (Except.ok.inj hurl).symm
    subst hup
    intro hm
    simp only [String.data_append, List.mem_append] at hm
    rcases hm with ((((((h | h) | h) | h) | h) | h) | h)
    · exact absurd h (by decide)
    · exact absurd h (by decide)
    · exact (quote_plus_chars _ ' ' h).2.2 rfl
    · exact absurd h (by decide)
    · revert h
      cases imperial <;> decide
    · exact absurd h (by decide)
    · exact hsp h

/-- Witness for C10 on the city ["New", "York"] and api key "abc123". -/
theorem claim_C10_witness :
    quote_plus ("New" ++ " " ++ "York") = quote_plus "New" ++ "+" ++ quote_plus "York" ∧
    ' ' ∉ ("http://api.openweathermap.org/data/2.5/weather?q=New+York&units=metric&appid=abc123" : String).data :=
  claim_C10_plus_encoding "New" "York" ⟨[("openweather", [("api_key", "abc123")])]⟩
    "abc123" ["New", "York"] false
    "http://api.openweathermap.org/data/2.5/weather?q=New+York&units=metric&appid=abc123"
    rfl (by decide) rfl
